import Mathlib

/-!
Shallow embedding of `share/tunnel/tunnel.go` from the chisel repository,
together with proofs of the specification claims about the Tunnel core:
the keepalive monitor, the readiness gate (`getSSH`), the bind/rebind
lifecycle (`BindSSH`, `Close`) and the proxy fan-out (`BindRemotes`).

Time is modelled in abstract discrete units (a `Nat`); durations such as
`Config.KeepAlive` and the `SSH_WAIT` readiness timeout are `Nat`s in the
same units.  Byte payloads are modelled as `String`s (the only payload the
code compares against is the literal byte sequence `"pong"`).
-/

namespace Chisel

/-- Error values (Go `error`); `none` is Go's `nil` error. -/
abbrev Err := String

/-- The transport connection (`ssh.Conn`).  Modelled from the spec: the
transport connection is an external collaborator exposing a non-blocking
`Close`; closing an already-closed connection is a no-op, so we model the
connection as an identity plus a `closed` flag. -/
structure ConnState where
  id : Nat
  closed : Bool
deriving DecidableEq, Repr

/-- `ssh.Conn.Close`: marks the connection closed (idempotent). -/
def closeConn (c : ConnState) : ConnState := { c with closed := true }

/-- `Config` (tunnel.go lines 23-29): immutable tunnel configuration. -/
structure Config where
  Inbound : Bool
  Outbound : Bool
  Socks : Bool
  KeepAlive : Nat
deriving DecidableEq, Repr

/-- The mutable fields of `Tunnel` (tunnel.go lines 38-50) that the claims
are about.  `activeConn` holds the id of the bound `ssh.Conn`, `none` when
no transport is bound.  `gateCount` is the counter of the `waitGroup`
`activatingConn` — modelled from the spec: the repository's `waitGroup`
type is not under `src/`; per spec §4.1 it is a re-armable readiness gate,
pending exactly when the counter is positive (`Add 1` = `markPending`,
`Done` = `markReady`, `Wait` unblocks when the counter reaches zero). -/
structure TunnelState where
  activeConn : Option Nat
  gateCount : Nat
  proxyCount : Nat
deriving DecidableEq, Repr

/-- The gate is pending (readers of `activatingConn.Wait` block) iff the
wait-group counter is positive. -/
def gatePending (t : TunnelState) : Bool := decide (0 < t.gateCount)

/-- BindSSH (tunnel.go line 92): the keepalive monitor is started iff
`t.Config.KeepAlive > 0`. -/
def keepAliveStarted (cfg : Config) : Bool := decide (0 < cfg.KeepAlive)

/-! ## Keepalive monitor (tunnel.go lines 180-218) -/

/-- The outcome of one `sshConn.SendRequest("ping", true, nil)`:
the reply payload `b` and the transport-level error. -/
structure PingReply where
  payload : String
  err : Option Err
deriving DecidableEq, Repr

/-- `Tunnel.KeepAliveChan` (tunnel.go lines 201-218): the inner goroutine
sends the `SendRequest` error on `ch` when it is non-nil, then sends
`"strange ping response"` when the payload is non-empty and differs from
the byte sequence `"pong"`, then closes `ch`.  The loop receives exactly
one value from `ch`: the first value sent, or the zero value (`none`) when
the goroutine closes `ch` without sending.  This function is that first
observed value. -/
def keepAliveProbe (r : PingReply) : Option Err :=
  if r.err.isSome then r.err
  else if 0 < r.payload.length ∧ r.payload ≠ "pong" then
    some "strange ping response"
  else none

/-- One iteration's observable environment in `keepAliveLoop`:
`latency` is the time, measured from the start of the iteration's
`select`, at which the probe channel yields its value, and `result` is
the `SendRequest` outcome the probe goroutine observed. -/
structure ProbeEvent where
  latency : Nat
  result : PingReply
deriving DecidableEq, Repr

/-- The `select` in one iteration of `keepAliveLoop` (tunnel.go lines
190-197): `time.After(t.Config.KeepAlive)` fires at time `interval`; the
probe channel yields at `ev.latency`.  The reply wins only when it
arrives strictly within one interval. -/
inductive IterOutcome where
  | timeout
  | recv (e : Option Err)
deriving DecidableEq, Repr

def kaSelect (interval : Nat) (ev : ProbeEvent) : IterOutcome :=
  if interval ≤ ev.latency then .timeout
  else .recv (keepAliveProbe ev.result)

/-- Time spent blocked in the iteration's `select`: the reply's arrival
time, capped by the one-interval timeout. -/
def selectWait (interval : Nat) (ev : ProbeEvent) : Nat :=
  min ev.latency interval

/-- Whether the iteration makes `keepAliveLoop` return: on timeout, or on
receiving a non-nil error from the probe (tunnel.go lines 191-196). -/
def kaIterExits (interval : Nat) (ev : ProbeEvent) : Bool :=
  match kaSelect interval ev with
  | .timeout => true
  | .recv e => e.isSome

/-- `Tunnel.keepAliveLoop` (tunnel.go lines 180-199) run against a finite
list of per-iteration probe events: `some k` means the loop returned
during iteration `k` (0-based), triggering the deferred
`sshConn.Close()`; `none` means every listed iteration succeeded and the
loop is still running, waiting for its next tick. -/
def keepAliveLoopRun (interval : Nat) : List ProbeEvent → Option Nat
  | [] => none
  | ev :: evs =>
    if kaIterExits interval ev then some 0
    else (keepAliveLoopRun interval evs).map (· + 1)

/-- Number of `"ping"` requests sent while running over `evs`: each
iteration entered sends exactly one ping (the `KeepAliveChan` call in the
`select`), and no iteration after the exiting one is entered. -/
def pingsSent (interval : Nat) (evs : List ProbeEvent) : Nat :=
  match keepAliveLoopRun interval evs with
  | some k => k + 1
  | none => evs.length

/-- The transport connection after running the keepalive monitor over
`evs`: the deferred `sshConn.Close()` (tunnel.go lines 182-186) runs
exactly when the loop returns. -/
def connAfterKA (interval : Nat) (evs : List ProbeEvent) (c : ConnState) :
    ConnState :=
  match keepAliveLoopRun interval evs with
  | some _ => closeConn c
  | none => c

/-! ## BindSSH (tunnel.go lines 74-108) -/

/-- The mark-active section of `BindSSH` (tunnel.go lines 84-90): under
the exclusive lock, panic with `"double bind ssh"` when `activeConn` is
already non-nil, otherwise store the connection; then `Done` the gate
(`markReady`).  The Go panic is modelled as `Except.error`. -/
def bindSSHEnter (t : TunnelState) (c : Nat) : Except String TunnelState :=
  if t.activeConn.isSome then .error "double bind ssh"
  else .ok { t with activeConn := some c, gateCount := t.gateCount - 1 }

/-- The two state actions `BindSSH` performs after `c.Wait()` returns
(tunnel.go lines 103-106). -/
inductive BindAction where
  | markPending
  | clearActive
deriving DecidableEq, Repr

def applyBindAction (t : TunnelState) : BindAction → TunnelState
  | .markPending => { t with gateCount := t.gateCount + 1 }
  | .clearActive => { t with activeConn := none }

/-- The exit path of `BindSSH` in program order: `t.activatingConn.Add(1)`
(line 103, re-arming the gate to pending) and then, under the lock,
`t.activeConn = nil` (line 105). -/
def bindSSHExitTrace : List BindAction := [.markPending, .clearActive]

/-- `BindSSH` after `err := c.Wait()` (tunnel.go lines 100-107): applies
the exit trace to the tunnel state and returns `err` unchanged. -/
def bindSSHExit (t : TunnelState) (waitErr : Option Err) :
    TunnelState × Option Err :=
  (bindSSHExitTrace.foldl applyBindAction t, waitErr)

/-! ## getSSH and Close (tunnel.go lines 110-144, 221-228) -/

/-- `settings.EnvDuration("SSH_WAIT", 35*time.Second)` — modelled from the
spec: `share/settings` is not under `src/`; per the spec the readiness
timeout is configurable with a default on the order of tens of seconds,
and the call site names 35 seconds.  Time unit: seconds. -/
def sshWaitDefault : Nat := 35

/-- Environment of one `getSSH` call: whether `ctx` is already cancelled
at entry (`isDone(ctx)`), the value of `t.activeConn` at the initial read,
and for the blocking `select` the absolute times at which `ctx.Done()`
fires and at which `activatingConnWait`'s channel closes (`none` = never),
plus the value re-read from `t.activeConn` after the gate fires. -/
structure GetSSHEnv where
  ctxDoneAtEntry : Bool
  activeAtEntry : Option Nat
  ctxCancelAt : Option Nat
  gateReadyAt : Option Nat
  activeAtGateReady : Option Nat
deriving DecidableEq, Repr

/-- The `ctx.Done()` case of the `select` wins: `ctx` is cancelled
strictly before both the `SSH_WAIT` timeout and the gate. -/
def ctxWins (sshWait : Nat) (tc tg : Option Nat) : Bool :=
  match tc with
  | none => false
  | some a =>
    decide (a < sshWait) &&
      (match tg with | none => true | some g => decide (a < g))

/-- The `activatingConnWait` case of the `select` wins: the gate becomes
ready strictly before both the `SSH_WAIT` timeout and cancellation. -/
def gateWins (sshWait : Nat) (tc tg : Option Nat) : Bool :=
  match tg with
  | none => false
  | some g =>
    decide (g < sshWait) &&
      (match tc with | none => true | some a => decide (g < a))

/-- `Tunnel.getSSH` (tunnel.go lines 111-135): return `nil` immediately
when `ctx` is already done; return the active connection immediately when
one is set; otherwise `select` between cancellation (`nil`), the
`SSH_WAIT` timeout (`nil`), and the gate firing (re-read and return
`t.activeConn`).  Go resolves a `select` tie randomly; here ties fall to
the timeout branch, and the theorems only constrain strict winners. -/
def getSSH (sshWait : Nat) (env : GetSSHEnv) : Option Nat :=
  if env.ctxDoneAtEntry then none
  else
    match env.activeAtEntry with
    | some c => some c
    | none =>
      if ctxWins sshWait env.ctxCancelAt env.gateReadyAt then none
      else if gateWins sshWait env.ctxCancelAt env.gateReadyAt then
        env.activeAtGateReady
      else none

/-- `Tunnel.Close` (tunnel.go lines 221-228): fetch the connection via
`getSSH`; when it is `nil`, return `nil`; otherwise return the result of
`sshConn.Close()` (given here as `closeErr`). -/
def closeTunnel (sshWait : Nat) (env : GetSSHEnv) (closeErr : Option Err) :
    Option Err :=
  match getSSH sshWait env with
  | none => none
  | some _ => closeErr

/-! ## BindRemotes (tunnel.go lines 148-178) -/

/-- A remote spec (`settings.Remote`), opaque to this core. -/
structure Remote where
  id : Nat
deriving DecidableEq, Repr

/-- A proxy unit as constructed by `NewProxy(t.Logger, t, t.proxyCount,
remote)`: its diagnostic index and its remote. -/
structure Proxy where
  index : Nat
  remote : Remote
deriving DecidableEq, Repr

/-- The proxy-construction loop of `BindRemotes` (tunnel.go lines
155-163), with `NewProxy` success abstracted by the predicate `ok`
(`NewProxy` is repository code not under `src/`): each remote in order is
given the current `proxyCount` as its index and on success the count is
incremented; on the first failure the loop returns the error, keeping the
increments already made.  Returns the construction result and the final
`proxyCount`. -/
def buildProxies (ok : Remote → Bool) (count : Nat) :
    List Remote → Except Err (List Proxy) × Nat
  | [] => (.ok [], count)
  | r :: rs =>
    if ok r then
      let res := buildProxies ok (count + 1) rs
      (res.1.map (fun ps => { index := count, remote := r } :: ps), res.2)
    else (.error "NewProxy failed", count)

/-- Observable behaviour of one proxy unit's `p.Run(ctx)` inside the
errgroup: it returns `nil` on its own at time `t`, returns an error at
time `t`, or blocks until the group context is cancelled and returns
`nil` a teardown latency `d` after cancellation. -/
inductive UnitRun where
  | clean (t : Nat)
  | fails (t : Nat) (e : Err)
  | onCancel (d : Nat)
deriving DecidableEq, Repr

/-- Times at which units return non-nil errors. -/
def failTimes (us : List UnitRun) : List Nat :=
  us.filterMap fun u =>
    match u with
    | .fails t _ => some t
    | _ => none

/-- Earliest time at which some unit returns a non-nil error. -/
def firstFailTime (us : List UnitRun) : Option Nat := (failTimes us).min?

/-- Minimum of two optional times (`none` = never). -/
def oMin : Option Nat → Option Nat → Option Nat
  | none, b => b
  | some a, none => some a
  | some a, some b => some (min a b)

/-- `errgroup.WithContext` semantics (external collaborator
`golang.org/x/sync/errgroup`, modelled from its documented contract and
spec §4.4): the derived context is cancelled at the first of the outer
context's cancellation and the first unit error return. -/
def scopeCancelTime (outer : Option Nat) (us : List UnitRun) : Option Nat :=
  oMin outer (firstFailTime us)

/-- When a unit returns, given the scope's cancellation time (`none` =
never returns). -/
def unitReturnTime (cancel : Option Nat) : UnitRun → Option Nat
  | .clean t => some t
  | .fails t _ => some t
  | .onCancel d => cancel.map (· + d)

/-- The error a unit contributes at fail time `t` (`none` when the unit
does not fail at `t`). -/
def failErrAt (t : Nat) : UnitRun → Option Err
  | .fails s e => if s = t then some e else none
  | _ => none

/-- The error `eg.Wait()` reports: the error of the earliest-failing unit
(first in list order among ties), `none` when no unit fails. -/
def egWaitErr (us : List UnitRun) : Option Err :=
  match firstFailTime us with
  | none => none
  | some t => us.findSome? (failErrAt t)

/-- The time at which the last of the units returns, given the scope's
cancellation time: `none` when some unit never returns. -/
def allReturnTime (cancel : Option Nat) : List UnitRun → Option Nat
  | [] => some 0
  | u :: us =>
    match unitReturnTime cancel u, allReturnTime cancel us with
    | some r, some m => some (max r m)
    | _, _ => none

/-- The time at which `eg.Wait()` returns: `some` of the latest unit
return time when every unit returns, `none` when some unit never
returns. -/
def egWaitTime (outer : Option Nat) (us : List UnitRun) : Option Nat :=
  allReturnTime (scopeCancelTime outer us) us

/-- Result of a `BindRemotes` call: the returned error, the proxy units
actually handed to `eg.Go` (started), the tunnel's `proxyCount`
afterwards, and the time at which the call returns (`some 0` for the
immediate error paths, `eg.Wait()`'s return time otherwise, `none` when
some unit never returns). -/
structure BindRemotesOutcome where
  err : Option Err
  started : List Proxy
  proxyCount : Nat
  returnsAt : Option Nat
deriving DecidableEq, Repr

/-- `Tunnel.BindRemotes` (tunnel.go lines 148-178): error out on an empty
remote list, then when `Inbound` is disallowed, then build the proxies
(bailing out on a construction failure), then run them all under one
errgroup and return `eg.Wait()`'s error.  `behaviors` gives each started
unit's `Run` behaviour, positionally. -/
def bindRemotes (cfg : Config) (ok : Remote → Bool) (count : Nat)
    (remotes : List Remote) (outer : Option Nat)
    (behaviors : List UnitRun) : BindRemotesOutcome :=
  if remotes.isEmpty then
    { err := some "no remotes", started := [], proxyCount := count,
      returnsAt := some 0 }
  else if !cfg.Inbound then
    { err := some "inbound connections blocked", started := [],
      proxyCount := count, returnsAt := some 0 }
  else
    match buildProxies ok count remotes with
    | (.error e, count') =>
      { err := some e, started := [], proxyCount := count',
        returnsAt := some 0 }
    | (.ok ps, count') =>
      { err := egWaitErr behaviors, started := ps, proxyCount := count',
        returnsAt := egWaitTime outer behaviors }

/-! ## Helper lemmas about the keepalive monitor -/

theorem kaSelect_timeout {interval : Nat} {ev : ProbeEvent}
    (h : interval ≤ ev.latency) : kaSelect interval ev = .timeout := by
  simp only [kaSelect, if_pos h]

theorem kaSelect_recv {interval : Nat} {ev : ProbeEvent}
    (h : ev.latency < interval) :
    kaSelect interval ev = .recv (keepAliveProbe ev.result) := by
  simp only [kaSelect, if_neg (Nat.not_le.mpr h)]

theorem kaIterExits_of_timeout {interval : Nat} {ev : ProbeEvent}
    (h : interval ≤ ev.latency) : kaIterExits interval ev = true := by
  simp only [kaIterExits, kaSelect_timeout h]

theorem kaIterExits_of_err {interval : Nat} {ev : ProbeEvent}
    (h : ev.latency < interval)
    (he : (keepAliveProbe ev.result).isSome = true) :
    kaIterExits interval ev = true := by
  simp only [kaIterExits, kaSelect_recv h, he]

theorem kaIterExits_of_ok {interval : Nat} {ev : ProbeEvent}
    (h : ev.latency < interval) (he : keepAliveProbe ev.result = none) :
    kaIterExits interval ev = false := by
  simp only [kaIterExits, kaSelect_recv h, he, Option.isSome_none]

/-- If every iteration before `ev` succeeds and `ev` exits, the loop
returns during iteration `pre.length`, whatever comes after. -/
theorem keepAliveLoopRun_exit_at (interval : Nat) (pre : List ProbeEvent)
    (ev : ProbeEvent) (post : List ProbeEvent)
    (hpre : ∀ e ∈ pre, kaIterExits interval e = false)
    (hev : kaIterExits interval ev = true) :
    keepAliveLoopRun interval (pre ++ ev :: post) = some pre.length := by
  induction pre with
  | nil => simp [keepAliveLoopRun, hev]
  | cons p ps ih =>
    have hp : kaIterExits interval p = false := hpre p (by simp)
    have ih' := ih (fun e he => hpre e (by simp [he]))
    simp [keepAliveLoopRun, hp, ih']

/-- The loop is still running after `evs` iff every listed iteration
succeeded. -/
theorem keepAliveLoopRun_none_iff (interval : Nat) (evs : List ProbeEvent) :
    keepAliveLoopRun interval evs = none ↔
      ∀ e ∈ evs, kaIterExits interval e = false := by
  induction evs with
  | nil => simp [keepAliveLoopRun]
  | cons ev evs ih =>
    by_cases h : kaIterExits interval ev = true
    · simp [keepAliveLoopRun, h]
    · have h' : kaIterExits interval ev = false := by
        cases hb : kaIterExits interval ev
        · rfl
        · exact absurd hb h
      simp [keepAliveLoopRun, h', ih]

theorem pingsSent_exit_at (interval : Nat) (pre : List ProbeEvent)
    (ev : ProbeEvent) (post : List ProbeEvent)
    (hpre : ∀ e ∈ pre, kaIterExits interval e = false)
    (hev : kaIterExits interval ev = true) :
    pingsSent interval (pre ++ ev :: post) = pre.length + 1 := by
  simp [pingsSent, keepAliveLoopRun_exit_at interval pre ev post hpre hev]

theorem connAfterKA_closed_of_exit {interval : Nat} {evs : List ProbeEvent}
    (c : ConnState) (h : keepAliveLoopRun interval evs ≠ none) :
    (connAfterKA interval evs c).closed = true := by
  unfold connAfterKA
  cases hr : keepAliveLoopRun interval evs with
  | none => exact absurd hr h
  | some k => simp [closeConn]

/-! ## Claim theorems: keepalive monitor -/

/-- C1: the keepalive monitor, started iff `KeepAlive > 0`, sends one
ping per interval tick (one per iteration entered, and `pre.length + 1`
pings when it exits during iteration `pre.length`), bounds the wait for
the reply in each iteration's `select` by one interval, and — when no
reply arrives within one interval of the ping (`interval ≤ ev.latency`) —
returns at that iteration and runs the deferred close of the transport
connection; closing an already-closed connection is a no-op, so the
teardown is idempotent. -/
theorem keepAlive_interval_timeout_closes :
    (∀ cfg : Config, keepAliveStarted cfg = true ↔ 0 < cfg.KeepAlive) ∧
    (∀ (interval : Nat) (ev : ProbeEvent),
      selectWait interval ev ≤ interval) ∧
    (∀ (interval : Nat) (evs : List ProbeEvent),
      (∀ e ∈ evs, kaIterExits interval e = false) →
      pingsSent interval evs = evs.length) ∧
    (∀ (interval : Nat) (pre : List ProbeEvent) (ev : ProbeEvent)
        (post : List ProbeEvent) (c : ConnState),
      (∀ e ∈ pre, kaIterExits interval e = false) →
      interval ≤ ev.latency →
      keepAliveLoopRun interval (pre ++ ev :: post) = some pre.length ∧
      pingsSent interval (pre ++ ev :: post) = pre.length + 1 ∧
      (connAfterKA interval (pre ++ ev :: post) c).closed = true) ∧
    (∀ c : ConnState, closeConn (closeConn c) = closeConn c) := by
  refine ⟨?_, ?_, ?_, ?_, ?_⟩
  · intro cfg
    simp [keepAliveStarted]
  · intro interval ev
    exact Nat.min_le_right _ _
  · intro interval evs h
    simp [pingsSent, (keepAliveLoopRun_none_iff interval evs).mpr h]
  · intro interval pre ev post c hpre hto
    have hex := keepAliveLoopRun_exit_at interval pre ev post hpre
      (kaIterExits_of_timeout hto)
    refine ⟨hex, pingsSent_exit_at interval pre ev post hpre
      (kaIterExits_of_timeout hto), ?_⟩
    exact connAfterKA_closed_of_exit c (by simp [hex])
  · intro c
    simp [closeConn]

/-- C1 witness: with interval 5, a first iteration whose `pong` reply
arrives after 1 unit and a second whose reply never arrives within the
interval, the loop exits at iteration 1, has sent 2 pings, and the
connection ends closed. -/
theorem keepAlive_interval_timeout_closes_witness :
    keepAliveLoopRun 5
        [⟨1, ⟨"pong", none⟩⟩, ⟨5, ⟨"pong", none⟩⟩] = some 1 ∧
    pingsSent 5 [⟨1, ⟨"pong", none⟩⟩, ⟨5, ⟨"pong", none⟩⟩] = 2 ∧
    (connAfterKA 5 [⟨1, ⟨"pong", none⟩⟩, ⟨5, ⟨"pong", none⟩⟩]
        ⟨0, false⟩).closed = true :=
  keepAlive_interval_timeout_closes.2.2.2.1 5 [⟨1, ⟨"pong", none⟩⟩]
    ⟨5, ⟨"pong", none⟩⟩ [] ⟨0, false⟩ (by decide) (by decide)

/-- C6: a ping reply with a non-empty payload different from `"pong"` is
a probe failure even with no transport-level error, and on any probe
failure received within the interval the monitor exits at that iteration,
closes the connection, and sends no further ping (no retry). -/
theorem keepAlive_strange_payload_fails :
    (∀ r : PingReply, r.err = none → 0 < r.payload.length →
      r.payload ≠ "pong" → keepAliveProbe r = some "strange ping response") ∧
    (∀ (interval : Nat) (pre : List ProbeEvent) (ev : ProbeEvent)
        (post : List ProbeEvent) (c : ConnState),
      (∀ e ∈ pre, kaIterExits interval e = false) →
      ev.latency < interval →
      (keepAliveProbe ev.result).isSome = true →
      keepAliveLoopRun interval (pre ++ ev :: post) = some pre.length ∧
      pingsSent interval (pre ++ ev :: post) = pre.length + 1 ∧
      (connAfterKA interval (pre ++ ev :: post) c).closed = true) := by
  refine ⟨?_, ?_⟩
  · intro r herr hlen hpong
    simp [keepAliveProbe, herr, hlen, hpong]
  · intro interval pre ev post c hpre hlat herr
    have hexit := kaIterExits_of_err hlat herr
    have hex := keepAliveLoopRun_exit_at interval pre ev post hpre hexit
    exact ⟨hex, pingsSent_exit_at interval pre ev post hpre hexit,
      connAfterKA_closed_of_exit c (by simp [hex])⟩

/-- C6 witness: interval 5, a first good iteration, then a reply `"bad"`
arriving after 1 unit: the loop exits at iteration 1 with 2 pings sent
and the connection closed, despite a further listed iteration. -/
theorem keepAlive_strange_payload_fails_witness :
    keepAliveProbe ⟨"bad", none⟩ = some "strange ping response" ∧
    keepAliveLoopRun 5
        [⟨1, ⟨"pong", none⟩⟩, ⟨1, ⟨"bad", none⟩⟩, ⟨1, ⟨"pong", none⟩⟩] =
      some 1 ∧
    pingsSent 5
        [⟨1, ⟨"pong", none⟩⟩, ⟨1, ⟨"bad", none⟩⟩, ⟨1, ⟨"pong", none⟩⟩] = 2 ∧
    (connAfterKA 5
        [⟨1, ⟨"pong", none⟩⟩, ⟨1, ⟨"bad", none⟩⟩, ⟨1, ⟨"pong", none⟩⟩]
        ⟨0, false⟩).closed = true :=
  ⟨keepAlive_strange_payload_fails.1 ⟨"bad", none⟩ rfl (by decide)
      (by decide),
    keepAlive_strange_payload_fails.2 5 [⟨1, ⟨"pong", none⟩⟩]
      ⟨1, ⟨"bad", none⟩⟩ [⟨1, ⟨"pong", none⟩⟩] ⟨0, false⟩ (by decide)
      (by decide) (by decide)⟩

/-- C10: an empty ping reply payload with no transport error is a probe
success; an iteration receiving a success within the interval does not
exit, the loop continues with the remaining iterations, and after such a
lone iteration the monitor is still running and the connection is
untouched (not closed). -/
theorem keepAlive_empty_payload_success :
    (∀ r : PingReply, r.err = none → r.payload = "" →
      keepAliveProbe r = none) ∧
    (∀ (interval : Nat) (ev : ProbeEvent) (evs : List ProbeEvent),
      ev.latency < interval → keepAliveProbe ev.result = none →
      kaIterExits interval ev = false ∧
      keepAliveLoopRun interval (ev :: evs) =
        (keepAliveLoopRun interval evs).map (· + 1)) ∧
    (∀ (interval : Nat) (ev : ProbeEvent) (c : ConnState),
      ev.latency < interval → keepAliveProbe ev.result = none →
      keepAliveLoopRun interval [ev] = none ∧
      connAfterKA interval [ev] c = c) := by
  refine ⟨?_, ?_, ?_⟩
  · intro r herr hemp
    simp [keepAliveProbe, herr, hemp]
  · intro interval ev evs hlat hok
    have h := kaIterExits_of_ok hlat hok
    exact ⟨h, by simp [keepAliveLoopRun, h]⟩
  · intro interval ev c hlat hok
    have h := kaIterExits_of_ok hlat hok
    have hr : keepAliveLoopRun interval [ev] = none := by
      simp [keepAliveLoopRun, h]
    exact ⟨hr, by simp [connAfterKA, hr]⟩

/-- C10 witness: interval 5, an empty reply arriving after 1 unit: the
probe succeeds, the monitor is still running after the iteration, and the
connection is unchanged. -/
theorem keepAlive_empty_payload_success_witness :
    keepAliveProbe ⟨"", none⟩ = none ∧
    keepAliveLoopRun 5 [⟨1, ⟨"", none⟩⟩] = none ∧
    connAfterKA 5 [⟨1, ⟨"", none⟩⟩] ⟨0, false⟩ = ⟨0, false⟩ :=
  ⟨keepAlive_empty_payload_success.1 ⟨"", none⟩ rfl rfl,
    (keepAlive_empty_payload_success.2.2 5 ⟨1, ⟨"", none⟩⟩ ⟨0, false⟩
      (by decide) (by decide)).1,
    (keepAlive_empty_payload_success.2.2 5 ⟨1, ⟨"", none⟩⟩ ⟨0, false⟩
      (by decide) (by decide)).2⟩

/-! ## Helper lemmas about the getSSH select -/

theorem ctxWins_eq_true {sshWait a : Nat} {tg : Option Nat}
    (h1 : a < sshWait) (h2 : ∀ g, tg = some g → a < g) :
    ctxWins sshWait (some a) tg = true := by
  cases tg with
  | none => simp [ctxWins, h1]
  | some g => simp [ctxWins, h1, h2 g rfl]

theorem ctxWins_eq_false_of_timeout {sshWait : Nat} {tc tg : Option Nat}
    (h : ∀ a, tc = some a → sshWait ≤ a) : ctxWins sshWait tc tg = false := by
  cases tc with
  | none => rfl
  | some a => simp [ctxWins, Nat.not_lt.mpr (h a rfl)]

theorem ctxWins_eq_false_of_gate {sshWait g : Nat} {tc : Option Nat}
    (h : ∀ a, tc = some a → g < a) :
    ctxWins sshWait tc (some g) = false := by
  cases tc with
  | none => rfl
  | some a =>
    simp [ctxWins, Nat.not_lt.mpr (Nat.le_of_lt (h a rfl))]

theorem gateWins_eq_true {sshWait g : Nat} {tc : Option Nat}
    (h1 : g < sshWait) (h2 : ∀ a, tc = some a → g < a) :
    gateWins sshWait tc (some g) = true := by
  cases tc with
  | none => simp [gateWins, h1]
  | some a => simp [gateWins, h1, h2 a rfl]

theorem gateWins_eq_false_of_timeout {sshWait : Nat} {tc tg : Option Nat}
    (h : ∀ g, tg = some g → sshWait ≤ g) : gateWins sshWait tc tg = false := by
  cases tg with
  | none => rfl
  | some g => simp [gateWins, Nat.not_lt.mpr (h g rfl)]

theorem gateWins_eq_false_of_ctx {sshWait a : Nat} {tg : Option Nat}
    (h : ∀ g, tg = some g → a < g) :
    gateWins sshWait (some a) tg = false := by
  cases tg with
  | none => rfl
  | some g =>
    simp [gateWins, Nat.not_lt.mpr (Nat.le_of_lt (h g rfl))]

/-! ## Claim theorems: getSSH, Close, BindSSH -/

/-- C2: `getSSH` returns `nil` immediately when `ctx` is already
cancelled; returns the current connection immediately when one is active;
otherwise blocks and returns `nil` on cancellation winning the select,
`nil` on the `SSH_WAIT` readiness timeout (default 35 seconds) winning,
and the newly re-read active connection when the gate fires first. -/
theorem getSSH_awaitReady_spec :
    sshWaitDefault = 35 ∧
    (∀ (sshWait : Nat) (env : GetSSHEnv), env.ctxDoneAtEntry = true →
      getSSH sshWait env = none) ∧
    (∀ (sshWait : Nat) (env : GetSSHEnv) (c : Nat),
      env.ctxDoneAtEntry = false → env.activeAtEntry = some c →
      getSSH sshWait env = some c) ∧
    (∀ (sshWait : Nat) (env : GetSSHEnv) (a : Nat),
      env.ctxDoneAtEntry = false → env.activeAtEntry = none →
      env.ctxCancelAt = some a → a < sshWait →
      (∀ g, env.gateReadyAt = some g → a < g) →
      getSSH sshWait env = none) ∧
    (∀ (sshWait : Nat) (env : GetSSHEnv),
      env.ctxDoneAtEntry = false → env.activeAtEntry = none →
      (∀ a, env.ctxCancelAt = some a → sshWait ≤ a) →
      (∀ g, env.gateReadyAt = some g → sshWait ≤ g) →
      getSSH sshWait env = none) ∧
    (∀ (sshWait : Nat) (env : GetSSHEnv) (g : Nat),
      env.ctxDoneAtEntry = false → env.activeAtEntry = none →
      env.gateReadyAt = some g → g < sshWait →
      (∀ a, env.ctxCancelAt = some a → g < a) →
      getSSH sshWait env = env.activeAtGateReady) := by
  refine ⟨rfl, ?_, ?_, ?_, ?_, ?_⟩
  · intro sshWait env hdone
    simp [getSSH, hdone]
  · intro sshWait env c hdone hact
    simp [getSSH, hdone, hact]
  · intro sshWait env a hdone hact hc hlt hg
    simp [getSSH, hdone, hact, hc, ctxWins_eq_true hlt hg]
  · intro sshWait env hdone hact hc hg
    simp [getSSH, hdone, hact, ctxWins_eq_false_of_timeout hc,
      gateWins_eq_false_of_timeout hg]
  · intro sshWait env g hdone hact hgr hlt hc
    simp [getSSH, hdone, hact, hgr, ctxWins_eq_false_of_gate hc,
      gateWins_eq_true hlt hc]

/-- C2 witness: a call with `ctx` already done returns `none`; a call
with an active connection returns it; a blocked call whose gate fires at
time 2 (before the 35-second timeout, cancellation never firing) returns
the re-read connection. -/
theorem getSSH_awaitReady_spec_witness :
    getSSH sshWaitDefault ⟨true, some 3, none, none, none⟩ = none ∧
    getSSH sshWaitDefault ⟨false, some 7, none, none, none⟩ = some 7 ∧
    getSSH sshWaitDefault ⟨false, none, some 1, some 9, some 4⟩ = none ∧
    getSSH sshWaitDefault ⟨false, none, none, none, none⟩ = none ∧
    getSSH sshWaitDefault ⟨false, none, none, some 2, some 8⟩ = some 8 :=
  ⟨getSSH_awaitReady_spec.2.1 sshWaitDefault ⟨true, some 3, none, none, none⟩
      rfl,
    getSSH_awaitReady_spec.2.2.1 sshWaitDefault
      ⟨false, some 7, none, none, none⟩ 7 rfl rfl,
    getSSH_awaitReady_spec.2.2.2.1 sshWaitDefault
      ⟨false, none, some 1, some 9, some 4⟩ 1 rfl rfl rfl (by decide)
      (by intro g h; cases h; decide),
    getSSH_awaitReady_spec.2.2.2.2.1 sshWaitDefault
      ⟨false, none, none, none, none⟩ rfl rfl (by intro a h; cases h)
      (by intro g h; cases h),
    getSSH_awaitReady_spec.2.2.2.2.2 sshWaitDefault
      ⟨false, none, none, some 2, some 8⟩ 2 rfl rfl rfl (by decide)
      (by intro a h; cases h)⟩

/-- C8: `Close` returns `nil` (success, no-op) when `getSSH` yields no
connection, and otherwise returns exactly the result of forcibly closing
the obtained connection. -/
theorem close_noop_or_forcible :
    (∀ (sshWait : Nat) (env : GetSSHEnv) (closeErr : Option Err),
      getSSH sshWait env = none →
      closeTunnel sshWait env closeErr = none) ∧
    (∀ (sshWait : Nat) (env : GetSSHEnv) (closeErr : Option Err) (c : Nat),
      getSSH sshWait env = some c →
      closeTunnel sshWait env closeErr = closeErr) := by
  constructor
  · intro sshWait env closeErr h
    simp [closeTunnel, h]
  · intro sshWait env closeErr c h
    simp [closeTunnel, h]

/-- C8 witness: with `ctx` already done `Close` is a no-op returning
`none`; with an active connection it returns the close result. -/
theorem close_noop_or_forcible_witness :
    closeTunnel sshWaitDefault ⟨true, some 3, none, none, none⟩
      (some "boom") = none ∧
    closeTunnel sshWaitDefault ⟨false, some 7, none, none, none⟩
      (some "boom") = some "boom" :=
  ⟨close_noop_or_forcible.1 sshWaitDefault ⟨true, some 3, none, none, none⟩
      (some "boom") rfl,
    close_noop_or_forcible.2 sshWaitDefault
      ⟨false, some 7, none, none, none⟩ (some "boom") 7 rfl⟩

/-- C3: `BindSSH` with a connection already active panics with
`"double bind ssh"`; a successful bind requires no connection to be
active beforehand and registers exactly the given connection, so at most
one connection is ever registered as active. -/
theorem bindSSH_double_bind_panics :
    (∀ (t : TunnelState) (c : Nat), t.activeConn ≠ none →
      bindSSHEnter t c = .error "double bind ssh") ∧
    (∀ (t : TunnelState) (c : Nat) (t' : TunnelState),
      bindSSHEnter t c = .ok t' →
      t.activeConn = none ∧ t'.activeConn = some c) := by
  constructor
  · intro t c h
    cases ha : t.activeConn with
    | none => exact absurd ha h
    | some d => simp [bindSSHEnter, ha]
  · intro t c t' h
    cases ha : t.activeConn with
    | none =>
      refine ⟨rfl, ?_⟩
      rw [bindSSHEnter, ha] at h
      simp at h
      rw [← h]
    | some d =>
      rw [bindSSHEnter, ha] at h
      simp at h

/-- C3 witness: binding while connection 1 is active panics; binding on
an idle tunnel succeeds and registers the new connection. -/
theorem bindSSH_double_bind_panics_witness :
    bindSSHEnter ⟨some 1, 0, 0⟩ 2 = .error "double bind ssh" ∧
    ((⟨none, 1, 0⟩ : TunnelState).activeConn = none ∧
      (⟨some 5, 0, 0⟩ : TunnelState).activeConn = some 5) :=
  ⟨bindSSH_double_bind_panics.1 ⟨some 1, 0, 0⟩ 2 (by simp),
    bindSSH_double_bind_panics.2 ⟨none, 1, 0⟩ 5 ⟨some 5, 0, 0⟩ rfl⟩

/-- C7: when `BindSSH` returns, the active connection has been cleared to
`nil` and the gate is pending again, the re-arm (`Add(1)`, markPending)
precedes the clearing of the field in program order, and the returned
value is exactly the error from the connection's `Wait`. -/
theorem bindSSH_exit_clears_and_rearms :
    (∀ (t : TunnelState) (waitErr : Option Err),
      (bindSSHExit t waitErr).1.activeConn = none ∧
      gatePending (bindSSHExit t waitErr).1 = true ∧
      (bindSSHExit t waitErr).2 = waitErr) ∧
    bindSSHExitTrace.indexOf .markPending <
      bindSSHExitTrace.indexOf .clearActive := by
  constructor
  · intro t waitErr
    refine ⟨rfl, ?_, rfl⟩
    simp [bindSSHExit, bindSSHExitTrace, applyBindAction, gatePending]
  · decide

/-! ## Helper lemmas about BindRemotes and the errgroup model -/

theorem oMin_le_right (a : Option Nat) (t : Nat) :
    ∃ t', oMin a (some t) = some t' ∧ t' ≤ t := by
  cases a with
  | none => exact ⟨t, rfl, Nat.le_refl t⟩
  | some x => exact ⟨min x t, rfl, Nat.min_le_right x t⟩

theorem allReturnTime_bounds {cancel : Option Nat} :
    ∀ {us : List UnitRun} {W : Nat}, allReturnTime cancel us = some W →
    ∀ u ∈ us, ∃ r, unitReturnTime cancel u = some r ∧ r ≤ W := by
  intro us
  induction us with
  | nil => intro W _ u hu; simp at hu
  | cons v vs ih =>
    intro W h u hu
    simp only [allReturnTime] at h
    cases hv : unitReturnTime cancel v with
    | none => rw [hv] at h; simp at h
    | some r =>
      cases hm : allReturnTime cancel vs with
      | none => rw [hv, hm] at h; simp at h
      | some m =>
        rw [hv, hm] at h
        simp only [Option.some.injEq] at h
        rcases List.mem_cons.mp hu with rfl | hu'
        · exact ⟨r, hv, h ▸ Nat.le_max_left r m⟩
        · obtain ⟨s, hs, hle⟩ := ih hm u hu'
          exact ⟨s, hs, h ▸ Nat.le_trans hle (Nat.le_max_right r m)⟩

theorem firstFailTime_mem {us : List UnitRun} {t : Nat}
    (h : firstFailTime us = some t) : ∃ e, UnitRun.fails t e ∈ us := by
  have ht : t ∈ failTimes us := (List.min?_eq_some_iff'.mp h).1
  rw [failTimes, List.mem_filterMap] at ht
  obtain ⟨u, hu, hf⟩ := ht
  cases u with
  | clean s => simp at hf
  | onCancel d => simp at hf
  | fails s e =>
    simp only [Option.some.injEq] at hf
    exact ⟨e, hf ▸ hu⟩

theorem firstFailTime_le {us : List UnitRun} {t s : Nat} {e : Err}
    (h : firstFailTime us = some t) (hmem : UnitRun.fails s e ∈ us) :
    t ≤ s := by
  refine (List.min?_eq_some_iff'.mp h).2 s ?_
  rw [failTimes, List.mem_filterMap]
  exact ⟨.fails s e, hmem, rfl⟩

theorem firstFailTime_eq_none {us : List UnitRun}
    (h : ∀ u ∈ us, ∀ t e, u ≠ .fails t e) : firstFailTime us = none := by
  rw [firstFailTime, List.min?_eq_none_iff, failTimes,
    List.filterMap_eq_nil_iff]
  intro u hu
  cases u with
  | clean s => rfl
  | onCancel d => rfl
  | fails s e => exact absurd rfl (h _ hu s e)

theorem egWaitErr_eq_none_iff (us : List UnitRun) :
    egWaitErr us = none ↔ ∀ u ∈ us, ∀ t e, u ≠ .fails t e := by
  constructor
  · intro h u hu t e hne
    subst hne
    cases hf : firstFailTime us with
    | none =>
      rw [firstFailTime, List.min?_eq_none_iff] at hf
      have ht : t ∈ failTimes us := by
        rw [failTimes, List.mem_filterMap]
        exact ⟨_, hu, rfl⟩
      rw [hf] at ht
      simp at ht
    | some s =>
      rw [egWaitErr, hf, List.findSome?_eq_none_iff] at h
      obtain ⟨e', he'⟩ := firstFailTime_mem hf
      have hx := h _ he'
      simp [failErrAt] at hx
  · intro h
    rw [egWaitErr, firstFailTime_eq_none h]

theorem egWaitErr_firstFail {us : List UnitRun} {t : Nat}
    (h : firstFailTime us = some t) :
    ∃ e, egWaitErr us = some e ∧ UnitRun.fails t e ∈ us := by
  cases hfs : us.findSome? (failErrAt t) with
  | none =>
    exfalso
    rw [List.findSome?_eq_none_iff] at hfs
    obtain ⟨e, he⟩ := firstFailTime_mem h
    have hx := hfs _ he
    simp [failErrAt] at hx
  | some e =>
    refine ⟨e, by rw [egWaitErr, h]; exact hfs, ?_⟩
    obtain ⟨u, hu, hf⟩ := List.exists_of_findSome?_eq_some hfs
    cases u with
    | clean s => simp [failErrAt] at hf
    | onCancel d => simp [failErrAt] at hf
    | fails s e' =>
      simp only [failErrAt] at hf
      split at hf
      · next hst =>
        injection hf with hf'
        subst hf'
        subst hst
        exact hu
      · exact absurd hf (by simp)

theorem buildProxies_count_le (ok : Remote → Bool) :
    ∀ (rs : List Remote) (count : Nat),
      count ≤ (buildProxies ok count rs).2 := by
  intro rs
  induction rs with
  | nil => intro count; exact Nat.le_refl count
  | cons r rs ih =>
    intro count
    by_cases h : ok r
    · simp only [buildProxies, h, if_true]
      exact Nat.le_trans (Nat.le_succ count) (ih (count + 1))
    · simp only [buildProxies, h, if_false]
      exact Nat.le_refl count

theorem buildProxies_ok_spec (ok : Remote → Bool) :
    ∀ (rs : List Remote) (count : Nat) (ps : List Proxy),
      (buildProxies ok count rs).1 = .ok ps →
      (buildProxies ok count rs).2 = count + rs.length ∧
      ps.map Proxy.index = List.range' count rs.length ∧
      ps.map Proxy.remote = rs := by
  intro rs
  induction rs with
  | nil =>
    intro count ps h
    simp only [buildProxies, Except.ok.injEq] at h
    subst h
    simp [buildProxies]
  | cons r rs ih =>
    intro count ps h
    by_cases hok : ok r
    · simp only [buildProxies, hok, if_true] at h ⊢
      cases hrec : (buildProxies ok (count + 1) rs).1 with
      | error e => rw [hrec] at h; simp [Except.map] at h
      | ok ps' =>
        rw [hrec] at h
        simp only [Except.map, Except.ok.injEq] at h
        subst h
        obtain ⟨h1, h2, h3⟩ := ih (count + 1) ps' hrec
        refine ⟨?_, ?_, by simp [h3]⟩
        · rw [List.length_cons, h1]
          omega
        simp only [List.map_cons, h2, List.length_cons]
        rw [List.range'_succ]
    · simp only [buildProxies, hok, if_false] at h
      simp at h

/-! ## Claim theorems: BindRemotes -/

/-- C5: `BindRemotes` with an empty remote list returns the error
`"no remotes"` with no proxy unit started, and with `Inbound` disallowed
it returns an error (specifically `"inbound connections blocked"` when
the remote list is non-empty) with no proxy unit started; in both cases
immediately and with `proxyCount` untouched. -/
theorem bindRemotes_guard_errors :
    (∀ (cfg : Config) (ok : Remote → Bool) (count : Nat)
        (outer : Option Nat) (behaviors : List UnitRun),
      bindRemotes cfg ok count [] outer behaviors =
        ⟨some "no remotes", [], count, some 0⟩) ∧
    (∀ (cfg : Config) (ok : Remote → Bool) (count : Nat)
        (remotes : List Remote) (outer : Option Nat)
        (behaviors : List UnitRun), cfg.Inbound = false →
      (bindRemotes cfg ok count remotes outer behaviors).err.isSome = true ∧
      (bindRemotes cfg ok count remotes outer behaviors).started = [] ∧
      (bindRemotes cfg ok count remotes outer behaviors).proxyCount =
        count) ∧
    (∀ (cfg : Config) (ok : Remote → Bool) (count : Nat)
        (remotes : List Remote) (outer : Option Nat)
        (behaviors : List UnitRun), cfg.Inbound = false → remotes ≠ [] →
      bindRemotes cfg ok count remotes outer behaviors =
        ⟨some "inbound connections blocked", [], count, some 0⟩) := by
  refine ⟨fun cfg ok count outer behaviors => rfl, ?_, ?_⟩
  · intro cfg ok count remotes outer behaviors hin
    cases remotes with
    | nil => exact ⟨rfl, rfl, rfl⟩
    | cons r rs => simp [bindRemotes, hin]
  · intro cfg ok count remotes outer behaviors hin hne
    cases remotes with
    | nil => exact absurd rfl hne
    | cons r rs => simp [bindRemotes, hin]

/-- C5 witness: an empty remote list errors with nothing started; a
non-empty list on an inbound-disallowed tunnel errors with nothing
started. -/
theorem bindRemotes_guard_errors_witness :
    bindRemotes ⟨true, true, false, 0⟩ (fun _ => true) 4 [] none [] =
      ⟨some "no remotes", [], 4, some 0⟩ ∧
    bindRemotes ⟨false, true, false, 0⟩ (fun _ => true) 4 [⟨1⟩] none [] =
      ⟨some "inbound connections blocked", [], 4, some 0⟩ :=
  ⟨bindRemotes_guard_errors.1 ⟨true, true, false, 0⟩ (fun _ => true) 4
      none [],
    bindRemotes_guard_errors.2.2 ⟨false, true, false, 0⟩ (fun _ => true) 4
      [⟨1⟩] none [] rfl (by simp)⟩

/-- C4: under the shared errgroup scope, the scope is cancelled no later
than the first unit error; every cancellation-bound unit then returns
within its teardown latency of the first error; `eg.Wait()` returns no
earlier than any unit's return; its error is `nil` iff no unit returned
an error, and otherwise it is the error of an earliest-failing unit; and
`BindRemotes`, past its guards and a successful construction, returns
exactly `eg.Wait()`'s error after starting all constructed units. -/
theorem bindRemotes_failfast_group :
    (∀ (outer : Option Nat) (us : List UnitRun) (t : Nat),
      firstFailTime us = some t →
      ∃ t', scopeCancelTime outer us = some t' ∧ t' ≤ t) ∧
    (∀ (outer : Option Nat) (us : List UnitRun) (t d : Nat),
      firstFailTime us = some t →
      ∃ r, unitReturnTime (scopeCancelTime outer us) (.onCancel d) =
        some r ∧ r ≤ t + d) ∧
    (∀ (outer : Option Nat) (us : List UnitRun) (W : Nat),
      egWaitTime outer us = some W →
      ∀ u ∈ us, ∃ r,
        unitReturnTime (scopeCancelTime outer us) u = some r ∧ r ≤ W) ∧
    (∀ us : List UnitRun,
      egWaitErr us = none ↔ ∀ u ∈ us, ∀ t e, u ≠ .fails t e) ∧
    (∀ (us : List UnitRun) (t : Nat), firstFailTime us = some t →
      ∃ e, egWaitErr us = some e ∧ UnitRun.fails t e ∈ us ∧
        ∀ (s : Nat) (e' : Err), UnitRun.fails s e' ∈ us → t ≤ s) ∧
    (∀ (cfg : Config) (ok : Remote → Bool) (count : Nat)
        (rs : List Remote) (outer : Option Nat)
        (behaviors : List UnitRun) (ps : List Proxy),
      cfg.Inbound = true → rs ≠ [] →
      (buildProxies ok count rs).1 = .ok ps →
      bindRemotes cfg ok count rs outer behaviors =
        ⟨egWaitErr behaviors, ps, (buildProxies ok count rs).2,
          egWaitTime outer behaviors⟩) := by
  refine ⟨?_, ?_, ?_, ?_, ?_, ?_⟩
  · intro outer us t h
    rw [scopeCancelTime, h]
    exact oMin_le_right outer t
  · intro outer us t d h
    obtain ⟨t', hc, hle⟩ : ∃ t', scopeCancelTime outer us = some t' ∧
        t' ≤ t := by
      rw [scopeCancelTime, h]
      exact oMin_le_right outer t
    rw [unitReturnTime, hc]
    exact ⟨t' + d, rfl, Nat.add_le_add_right hle d⟩
  · intro outer us W h
    exact allReturnTime_bounds h
  · exact egWaitErr_eq_none_iff
  · intro us t h
    obtain ⟨e, he, hmem⟩ := egWaitErr_firstFail h
    exact ⟨e, he, hmem, fun s e' hm => firstFailTime_le h hm⟩
  · intro cfg ok count rs outer behaviors ps hin hne hok
    have hne' : rs.isEmpty = false := by
      cases rs with
      | nil => exact absurd rfl hne
      | cons a l => rfl
    cases hbp : buildProxies ok count rs with
    | mk res cnt =>
      rw [hbp] at hok
      simp only at hok
      subst hok
      rw [bindRemotes, hne', hin, hbp]
      rfl

/-- C4 witness: three units — one failing at time 5 with `"boom"`, one
returning cleanly at 3, one cancellation-bound with teardown 2 — under a
never-cancelled outer context: the scope cancels at 5, `eg.Wait()`
returns at 7 after every unit, and `BindRemotes` over one remote reports
`"boom"` with the single constructed proxy started. -/
theorem bindRemotes_failfast_group_witness :
    scopeCancelTime none [.fails 5 "boom", .clean 3, .onCancel 2] =
      some 5 ∧
    egWaitTime none [.fails 5 "boom", .clean 3, .onCancel 2] = some 7 ∧
    bindRemotes ⟨true, true, false, 0⟩ (fun _ => true) 0 [⟨1⟩] none
        [.fails 5 "boom", .clean 3, .onCancel 2] =
      ⟨some "boom", [⟨0, ⟨1⟩⟩], 1, some 7⟩ := by
  refine ⟨rfl, rfl, ?_⟩
  have h := bindRemotes_failfast_group.2.2.2.2.2 ⟨true, true, false, 0⟩
    (fun _ => true) 0 [⟨1⟩] none
    [.fails 5 "boom", .clean 3, .onCancel 2] [⟨0, ⟨1⟩⟩]
    rfl (by simp) rfl
  rw [h]
  rfl

/-- C9: `proxyCount` never decreases: the construction loop of
`BindRemotes` assigns each successfully constructed proxy the current
count as its index (the indices of one call are consecutive from the
starting count) and increments the count once per success; `BindRemotes`
as a whole never lowers it (in particular it resumes from the previous
value, never resetting), and no other tunnel operation modifies it. -/
theorem proxyCount_monotone :
    (∀ (ok : Remote → Bool) (count : Nat) (rs : List Remote),
      count ≤ (buildProxies ok count rs).2) ∧
    (∀ (ok : Remote → Bool) (count : Nat) (rs : List Remote)
        (ps : List Proxy), (buildProxies ok count rs).1 = .ok ps →
      (buildProxies ok count rs).2 = count + rs.length ∧
      ps.map Proxy.index = List.range' count rs.length) ∧
    (∀ (cfg : Config) (ok : Remote → Bool) (count : Nat)
        (rs : List Remote) (outer : Option Nat)
        (behaviors : List UnitRun),
      count ≤ (bindRemotes cfg ok count rs outer behaviors).proxyCount) ∧
    (∀ (t : TunnelState) (a : BindAction),
      (applyBindAction t a).proxyCount = t.proxyCount) ∧
    (∀ (t : TunnelState) (c : Nat) (t' : TunnelState),
      bindSSHEnter t c = .ok t' → t'.proxyCount = t.proxyCount) := by
  refine ⟨?_, ?_, ?_, ?_, ?_⟩
  · intro ok count rs
    exact buildProxies_count_le ok rs count
  · intro ok count rs ps h
    obtain ⟨h1, h2, _⟩ := buildProxies_ok_spec ok rs count ps h
    exact ⟨h1, h2⟩
  · intro cfg ok count rs outer behaviors
    cases rs with
    | nil => exact Nat.le_refl count
    | cons r rs' =>
      cases hin : cfg.Inbound with
      | false => simp [bindRemotes, hin]
      | true =>
        cases hbp : buildProxies ok count (r :: rs') with
        | mk res cnt =>
          have hle : count ≤ cnt := by
            have := buildProxies_count_le ok (r :: rs') count
            rw [hbp] at this
            exact this
          rw [bindRemotes, hin, hbp]
          cases res with
          | error e => exact hle
          | ok ps => exact hle
  · intro t a
    cases a <;> rfl
  · intro t c t' h
    rw [bindSSHEnter] at h
    by_cases ha : t.activeConn.isSome
    · rw [if_pos ha] at h
      exact absurd h (by simp)
    · rw [if_neg ha] at h
      simp only [Except.ok.injEq] at h
      rw [← h]

/-- C9 witness: building two remotes starting from count 4 assigns
indices 4 and 5 and leaves the count at 6, and a full `BindRemotes` call
never lowers the count. -/
theorem proxyCount_monotone_witness :
    (buildProxies (fun _ => true) 4 [⟨1⟩, ⟨2⟩]).2 = 4 + 2 ∧
    ([⟨4, ⟨1⟩⟩, ⟨5, ⟨2⟩⟩] : List Proxy).map Proxy.index =
      List.range' 4 2 ∧
    4 ≤ (bindRemotes ⟨true, true, false, 0⟩ (fun _ => true) 4
        [⟨1⟩, ⟨2⟩] none []).proxyCount :=
  ⟨(proxyCount_monotone.2.1 (fun _ => true) 4 [⟨1⟩, ⟨2⟩]
      [⟨4, ⟨1⟩⟩, ⟨5, ⟨2⟩⟩] rfl).1,
    (proxyCount_monotone.2.1 (fun _ => true) 4 [⟨1⟩, ⟨2⟩]
      [⟨4, ⟨1⟩⟩, ⟨5, ⟨2⟩⟩] rfl).2,
    proxyCount_monotone.2.2.1 ⟨true, true, false, 0⟩ (fun _ => true) 4
      [⟨1⟩, ⟨2⟩] none []⟩

end Chisel
